import Mathlib

/-
Verification of the service traffic and lifecycle monitor
(traffic_monitor.py).  The Python code is shallowly embedded: each
monitor method that the claims depend on becomes a Lean function over an
explicit state, machine times and traffic counters become rationals, and
external collaborators (panel adapter, store, messenger, user lookup) are
modelled by an environment record of their observable outcomes.
-/

namespace TrafficMonitor

/-- Bytes in one GiB, the constant 1024*1024*1024 used throughout the code. -/
def gib : ℚ := 1024 * 1024 * 1024

/-- Models the Python call round(x, 4): rounding to four decimal places.
CPython rounds exact float ties to even; we round ties up, which agrees with
it everywhere except on exact ties, which no claim depends on. -/
def round4 (x : ℚ) : ℚ := (⌊x * 10000 + 1/2⌋ : ℚ) / 10000

/-- Service status as used by the monitor: the code compares the stored
string against the literal disabled, treating every other value (default
active) as not disabled. -/
inductive Status
  | active
  | disabled
deriving DecidableEq, Repr

/-- A service record as read from the store (the fields of the service
dict that traffic_monitor.py consults). -/
structure Service where
  id : Nat
  user_id : Nat
  status : Status
  warned_70_percent : Bool
  warned_100_percent : Bool
  warned_one_week : Bool
  warned_expired : Bool
  exhausted_at : Option ℚ
  expired_at : Option ℚ
  expires_at : Option ℚ
  product_id : Option Nat
deriving DecidableEq, Repr

/-- Kinds of user-facing notifications the monitor produces. -/
inductive MsgKind
  | warn70
  | exhausted
  | three_day_warning
  | plan_expired
  | overage_deleted
  | exhausted_deleted
  | expired_plan_deleted
deriving DecidableEq, Repr

/-- One outbound user message (recipient plus which notification it is). -/
structure Msg where
  chat_id : Nat
  kind : MsgKind
deriving DecidableEq, Repr

/-- Remote panel-adapter calls the monitor issues. -/
inductive PanelCall
  | disable_client (service_id : Nat)
  | delete_client (service_id : Nat)
deriving DecidableEq, Repr

/-- Observable outcomes of the external collaborators during one call:
datetime.now(), whether the panel manager exists and login() succeeds,
whether disable_client returns success, and whether get_user_by_id finds
the user. -/
structure Env where
  now : ℚ
  login_ok : Bool
  disable_ok : Bool
  user_exists : Bool
deriving DecidableEq, Repr

/-- Client details resolved from the panel (fields of the client dict that
process_client_traffic reads, all in bytes). -/
structure ClientDetails where
  total_traffic : ℚ
  used_traffic : ℚ
  totalGB : ℚ
  up : ℚ
  down : ℚ
deriving DecidableEq, Repr

/-- State threaded through one monitoring pass: the persisted service
record, whether delete_service was called, the is_active column, the
rate-limited message queue (appended by _send_message_safe), messages sent
directly through bot.send_message, panel-adapter calls, and the
pending_updates buffer. -/
structure MonState where
  db : Service
  deleted : Bool
  is_active : Bool
  queued : List Msg
  direct : List Msg
  panel : List PanelCall
  pending_updates : List (Nat × ℚ)
deriving DecidableEq, Repr

/-- Count messages of one kind in a list. -/
def countKind (k : MsgKind) (l : List Msg) : Nat :=
  l.countP (fun m => m.kind == k)

/-- Traffic total as resolved in process_client_traffic lines 578-583:
take total_traffic, and fall back to the totalGB field when it is zero. -/
def resolved_total_traffic (c : ClientDetails) : ℚ :=
  if c.total_traffic = 0 then c.totalGB else c.total_traffic

/-- Traffic usage as resolved in process_client_traffic lines 579-589:
take used_traffic, and when it is zero fall back to up + down provided one
of them is positive. -/
def resolved_used_traffic (c : ClientDetails) : ℚ :=
  if c.used_traffic = 0 then
    if 0 < c.up ∨ 0 < c.down then c.up + c.down else 0
  else c.used_traffic

/-- The used_gb value process_client_traffic computes at line 601 and
stages into pending_updates. -/
def used_gb_of (c : ClientDetails) : ℚ :=
  if 0 < resolved_used_traffic c then round4 (resolved_used_traffic c / gib) else 0

/-- The total_gb value process_client_traffic computes at line 602. -/
def total_gb_of (c : ClientDetails) : ℚ :=
  if 0 < resolved_total_traffic c then round4 (resolved_total_traffic c / gib) else 0

/-- The pending_updates entry staged for one evaluated service
(process_client_traffic lines 608-611). -/
def staged_entry (s : Service) (c : ClientDetails) : Nat × ℚ :=
  (s.id, used_gb_of c)

/-- Embeds TrafficMonitor.send_70_percent_warning (lines 805-890): look up
the user, re-read the warning flags from the store and skip when
warned_70_percent is already set, otherwise enqueue the warning on the
rate-limited queue.  The percentage arguments only feed the message text. -/
def send_70_percent_warning (env : Env) (s : Service) (st : MonState) : MonState :=
  if env.user_exists = false then st
  else if st.db.warned_70_percent = true then st
  else { st with queued := st.queued ++ [Msg.mk s.user_id MsgKind.warn70] }

/-- Embeds TrafficMonitor.send_exhaustion_notification (lines 717-803):
look up the user, re-read the flags from the store and skip when
warned_100_percent is already set, otherwise enqueue the exhaustion
notification and persist warned_100_percent := true. -/
def send_exhaustion_notification (env : Env) (s : Service) (st : MonState) : MonState :=
  if env.user_exists = false then st
  else if st.db.warned_100_percent = true then st
  else
    let st1 := { st with queued := st.queued ++ [Msg.mk s.user_id MsgKind.exhausted] }
    { st1 with db := { st1.db with warned_100_percent := true } }

/-- Embeds TrafficMonitor.send_three_days_expiration_warning (lines
1170-1241): look up the user and enqueue the 3-day warning.  Faithful to
the source, there is NO fresh re-read of warned_one_week here; the only
guard is the caller's in-memory flag. -/
def send_three_days_expiration_warning (env : Env) (s : Service)
    (remaining_days : ℤ) (st : MonState) : MonState :=
  if env.user_exists = false then st
  else { st with queued := st.queued ++ [Msg.mk s.user_id MsgKind.three_day_warning] }

/-- Embeds TrafficMonitor.send_plan_expiration_notification (lines
1243-1327): look up the user, re-read the flags from the store and skip
when warned_expired is already set, otherwise enqueue the notification and
persist warned_expired := true. -/
def send_plan_expiration_notification (env : Env) (s : Service) (st : MonState) : MonState :=
  if env.user_exists = false then st
  else if st.db.warned_expired = true then st
  else
    let st1 := { st with queued := st.queued ++ [Msg.mk s.user_id MsgKind.plan_expired] }
    { st1 with db := { st1.db with warned_expired := true } }

/-- Embeds TrafficMonitor.handle_traffic_exhausted (lines 688-715): skip
when the snapshot already says disabled; otherwise disable the client on
the panel and, on success, persist status := disabled, set the exhaustion
anchor (update_service_exhaustion_time) and send the notification.
is_active is deliberately left true during the grace period. -/
def handle_traffic_exhausted (env : Env) (s : Service) (st : MonState) : MonState :=
  if s.status = Status.disabled then st
  else if env.login_ok = false then st
  else
    let st1 := { st with panel := st.panel ++ [PanelCall.disable_client s.id] }
    if env.disable_ok = false then st1
    else
      let st2 := { st1 with
        db := { st1.db with status := Status.disabled, exhausted_at := some env.now } }
      send_exhaustion_notification env s st2

/-- Embeds TrafficMonitor.handle_plan_expiration (lines 1144-1168):
disable the client on the panel and, on success, persist
status := disabled, set the expiration anchor
(update_service_expiration_time) and send the notification. -/
def handle_plan_expiration (env : Env) (s : Service) (st : MonState) : MonState :=
  if env.login_ok = false then st
  else
    let st1 := { st with panel := st.panel ++ [PanelCall.disable_client s.id] }
    if env.disable_ok = false then st1
    else
      let st2 := { st1 with
        db := { st1.db with status := Status.disabled, expired_at := some env.now } }
      send_plan_expiration_notification env s st2

/-- Embeds TrafficMonitor.delete_service_for_overage (lines 892-959):
best-effort panel delete_client, delete_service in the store, then a
DIRECT bot.send_message to the user (not the rate-limited queue).  The
percentage and overage arguments only feed the message text. -/
def delete_service_for_overage (env : Env) (s : Service)
    (usage_percentage overage_gb : ℚ) (st : MonState) : MonState :=
  let st1 :=
    if env.login_ok = true then { st with panel := st.panel ++ [PanelCall.delete_client s.id] }
    else st
  let st2 := { st1 with deleted := true, is_active := false }
  if env.user_exists = true then
    { st2 with direct := st2.direct ++ [Msg.mk s.user_id MsgKind.overage_deleted] }
  else st2

/-- Embeds TrafficMonitor.check_disabled_service_overage (lines 649-686):
no-op without an exhaustion anchor; no-op once now minus the anchor
exceeds 24 hours (strictly greater, so the check still runs at exactly
24h); otherwise recompute the overage from the rounded GB figures and
delete immediately on a breach (110 percent or 1 GB over). -/
def check_disabled_service_overage (env : Env) (s : Service)
    (usage_percentage used_gb total_gb : ℚ) (st : MonState) : MonState :=
  match s.exhausted_at with
  | none => st
  | some exhausted_time =>
    if 24 * 3600 < env.now - exhausted_time then st
    else
      let total_gb_bytes := if 0 < total_gb then total_gb * gib else 0
      let used_gb_bytes := if 0 < used_gb then used_gb * gib else 0
      let overage_bytes := if total_gb_bytes < used_gb_bytes then used_gb_bytes - total_gb_bytes else 0
      let overage_gb := overage_bytes / gib
      if 110 ≤ usage_percentage ∨ 1 ≤ overage_gb then
        delete_service_for_overage env s usage_percentage overage_gb st
      else st

/-- Embeds TrafficMonitor.check_expired_service_overage (lines 1105-1142):
identical to the disabled-service overage check but anchored at
expired_at. -/
def check_expired_service_overage (env : Env) (s : Service)
    (usage_percentage used_gb total_gb : ℚ) (st : MonState) : MonState :=
  match s.expired_at with
  | none => st
  | some expired_time =>
    if 24 * 3600 < env.now - expired_time then st
    else
      let total_gb_bytes := if 0 < total_gb then total_gb * gib else 0
      let used_gb_bytes := if 0 < used_gb then used_gb * gib else 0
      let overage_bytes := if total_gb_bytes < used_gb_bytes then used_gb_bytes - total_gb_bytes else 0
      let overage_gb := overage_bytes / gib
      if 110 ≤ usage_percentage ∨ 1 ≤ overage_gb then
        delete_service_for_overage env s usage_percentage overage_gb st
      else st

/-- Embeds TrafficMonitor.check_plan_expiration (lines 1042-1103): only
plan services with an expiry date; remaining_days is the Python
timedelta.days of expires_at minus now (floor division by 86400); a 3-day
warning when 0 < remaining_days <= 3 and warned_one_week is unset; on
expiry either disable (snapshot not yet disabled) or, when already
disabled with an expiration anchor, run the overage check.  Note the
overage branch reads used_traffic directly, without the up/down fallback
of process_client_traffic. -/
def check_plan_expiration (env : Env) (s : Service) (client : ClientDetails)
    (st : MonState) : MonState :=
  match s.product_id, s.expires_at with
  | some _, some exp_date =>
    let remaining_days : ℤ := ⌊(exp_date - env.now) / 86400⌋
    let st1 :=
      if remaining_days ≤ 3 ∧ 0 < remaining_days ∧ s.warned_one_week = false then
        let sta := send_three_days_expiration_warning env s remaining_days st
        { sta with db := { sta.db with warned_one_week := true } }
      else st
    if exp_date ≤ env.now then
      if s.status ≠ Status.disabled then handle_plan_expiration env s st1
      else
        match s.expired_at with
        | none => st1
        | some _ =>
          let total_traffic_bytes := resolved_total_traffic client
          let used_traffic_bytes := client.used_traffic
          if 0 < total_traffic_bytes then
            let used_gb := if 0 < used_traffic_bytes then round4 (used_traffic_bytes / gib) else 0
            let total_gb := if 0 < total_traffic_bytes then round4 (total_traffic_bytes / gib) else 0
            let usage_percentage := used_traffic_bytes / total_traffic_bytes * 100
            check_expired_service_overage env s usage_percentage used_gb total_gb st1
          else st1
    else st1
  | _, _ => st

/-- Embeds TrafficMonitor.process_client_traffic (lines 565-647): run the
plan-expiration check first for plan services, resolve the byte counters,
always stage the used_gb update into pending_updates, return early for
unlimited services (resolved total <= 0), then evaluate the 70 percent
warning band and the 100 percent threshold against the in-memory
snapshot s. -/
def process_client_traffic (env : Env) (s : Service) (client : ClientDetails)
    (st : MonState) : MonState :=
  let st1 := if s.product_id.isSome then check_plan_expiration env s client st else st
  let total_traffic_bytes := resolved_total_traffic client
  let used_traffic_bytes := resolved_used_traffic client
  let used_gb := used_gb_of client
  let total_gb := total_gb_of client
  let st2 := { st1 with pending_updates := st1.pending_updates ++ [staged_entry s client] }
  if total_traffic_bytes ≤ 0 then st2
  else
    let usage_percentage := used_traffic_bytes / total_traffic_bytes * 100
    let st3 :=
      if 70 ≤ usage_percentage ∧ usage_percentage < 100 then
        if s.warned_70_percent = false ∧ s.status ≠ Status.disabled then
          let sta := send_70_percent_warning env s st2
          { sta with db := { sta.db with warned_70_percent := true } }
        else st2
      else st2
    if 100 ≤ usage_percentage then
      if s.status ≠ Status.disabled then handle_traffic_exhausted env s st3
      else check_disabled_service_overage env s usage_percentage used_gb total_gb st3
    else st3

/-- One reconciliation visit to a service in a later cycle: the snapshot
passed to process_client_traffic is re-fetched from the store, and a
deleted service is no longer returned by get_all_active_services. -/
def evalOnce (env : Env) (client : ClientDetails) (st : MonState) : MonState :=
  if st.deleted = true then st else process_client_traffic env st.db client st

/-- Iterated reconciliation visits with arbitrary collaborator outcomes
and live counters at each cycle. -/
def evalMany (steps : List (Env × ClientDetails)) (st : MonState) : MonState :=
  steps.foldl (fun st p => evalOnce p.1 p.2 st) st

/-- Embeds TrafficMonitor.delete_exhausted_service (lines 978-1040):
best-effort panel delete_client, delete_service in the store, then a
DIRECT bot.send_message to the user (not the rate-limited queue). -/
def delete_exhausted_service (env : Env) (s : Service) (st : MonState) : MonState :=
  let st1 :=
    if env.login_ok = true then { st with panel := st.panel ++ [PanelCall.delete_client s.id] }
    else st
  let st2 := { st1 with deleted := true, is_active := false }
  if env.user_exists = true then
    { st2 with direct := st2.direct ++ [Msg.mk s.user_id MsgKind.exhausted_deleted] }
  else st2

/-- Embeds TrafficMonitor.delete_expired_plan_service (lines 1329-1381):
best-effort panel delete_client, delete_service in the store, then a
DIRECT bot.send_message to the user (not the rate-limited queue). -/
def delete_expired_plan_service (env : Env) (s : Service) (st : MonState) : MonState :=
  let st1 :=
    if env.login_ok = true then { st with panel := st.panel ++ [PanelCall.delete_client s.id] }
    else st
  let st2 := { st1 with deleted := true, is_active := false }
  if env.user_exists = true then
    { st2 with direct := st2.direct ++ [Msg.mk s.user_id MsgKind.expired_plan_deleted] }
  else st2

/-
Scheduler (start_monitoring, lines 90-114).
-/

/-- The sleep performed at the end of a non-raising iteration of
start_monitoring (lines 101-110): wait_time = max(0, 180 - check_duration);
sleep wait_time when it is positive, otherwise sleep the 0.1-second
anti-busy-loop delay. -/
def iteration_sleep (check_duration : ℚ) : ℚ :=
  let wait_time := max 0 (180 - check_duration)
  if 0 < wait_time then wait_time else 1/10

/-- The observable actions of one scheduler iteration. -/
inductive SchedAction
  | reconcile
  | sweep
  | sleep (duration : ℚ)
deriving DecidableEq, Repr

/-- One pass of the while-loop in start_monitoring: none when the
monitoring flag is cleared (the only way the loop ends); otherwise run
check_all_services then check_for_deletion and sleep iteration_sleep,
or, when the iteration raised, log and sleep the fixed 60-second
backoff. -/
def scheduler_iteration (monitoring : Bool) (raised : Bool) (check_duration : ℚ) :
    Option (List SchedAction) :=
  if monitoring = false then none
  else if raised then some [SchedAction.sleep 60]
  else some [SchedAction.reconcile, SchedAction.sweep,
             SchedAction.sleep (iteration_sleep check_duration)]

/-
Update buffer (flush_updates lines 176-194, check_all_services lines
196-238).
-/

/-- Buffer-level view of one cycle: the staged pending_updates list and
the bulk writes that reached the store. -/
structure BufferState where
  pending_updates : List (Nat × ℚ)
  store_writes : List (List (Nat × ℚ))
deriving DecidableEq, Repr

/-- Embeds TrafficMonitor.flush_updates (lines 176-194): return on an
empty buffer; otherwise copy and clear the buffer first, then attempt the
single bulk_update_client_status write; a failed write is only logged, so
the cleared buffer is never refilled and the cycle's updates are lost. -/
def flush_updates (write_ok : Bool) (st : BufferState) : BufferState :=
  if st.pending_updates = [] then st
  else
    let updates_to_process := st.pending_updates
    let st1 := { st with pending_updates := ([] : List (Nat × ℚ)) }
    if write_ok then { st1 with store_writes := st1.store_writes ++ [updates_to_process] }
    else st1

/-- Buffer effect of one cycle of check_all_services: pending_updates is
cleared at the start of the cycle (line 206), each evaluated service
appends exactly its staged_entry (lines 608-611), and the buffer is
flushed once after all panels are processed (line 231). -/
def run_cycle_buffer (write_ok : Bool) (pairs : List (Service × ClientDetails)) :
    BufferState :=
  flush_updates write_ok
    { pending_updates := pairs.foldl (fun buf p => buf ++ [staged_entry p.1 p.2]) []
      store_writes := [] }

/-
Notification dispatcher (_process_message_queue lines 128-167).
-/

/-- The configured min_message_interval (1 second, line 51). -/
def min_message_interval : ℚ := 1

/-- One queued message as the single worker sees it: the recipient, the
earliest time the worker can dequeue it, how long the bot.send_message
call takes, and whether delivery succeeds (a blocked recipient raises and
is swallowed). -/
structure QueueItem where
  chat_id : Nat
  arrival : ℚ
  duration : ℚ
  ok : Bool
deriving DecidableEq, Repr

/-- Record of one performed bot.send_message call: recipient, the time
the call started, and whether it succeeded. -/
structure SendRecord where
  chat_id : Nat
  start : ℚ
  ok : Bool
deriving DecidableEq, Repr

/-- Worker state: the event-loop clock, the last_message_time map (an
association list whose lookup defaults to 0, like dict.get(chat_id, 0)),
and the performed sends. -/
structure DispatchState where
  now : ℚ
  last_message_time : List (Nat × ℚ)
  sends : List SendRecord
deriving DecidableEq, Repr

/-- Look up the last send time for a recipient, defaulting to 0. -/
def lookup_last (l : List (Nat × ℚ)) (chat_id : Nat) : ℚ :=
  match l.lookup chat_id with
  | some t => t
  | none => 0

/-- Record a new last send time for a recipient. -/
def set_last (l : List (Nat × ℚ)) (chat_id : Nat) (t : ℚ) : List (Nat × ℚ) :=
  (chat_id, t) :: l

/-- Embeds one pass of the _process_message_queue worker body (lines
132-163): dequeue an item, compare now against last_message_time for the
recipient, sleep the remainder of min_message_interval if needed, perform
the send, and record the completion time as the recipient's last send time
only when the send did not raise.  The concurrency semaphore never blocks
here because the single worker performs at most one send at a time. -/
def process_one (st : DispatchState) (item : QueueItem) : DispatchState :=
  let now := max st.now item.arrival
  let last_time := lookup_last st.last_message_time item.chat_id
  let time_since_last := now - last_time
  let start :=
    if time_since_last < min_message_interval then
      now + (min_message_interval - time_since_last)
    else now
  let finish := start + item.duration
  if item.ok then
    { now := finish
      last_message_time := set_last st.last_message_time item.chat_id finish
      sends := st.sends ++ [SendRecord.mk item.chat_id start true] }
  else
    { now := finish
      last_message_time := st.last_message_time
      sends := st.sends ++ [SendRecord.mk item.chat_id start false] }

/-- The single background worker draining the FIFO queue in order. -/
def process_message_queue (items : List QueueItem) (st : DispatchState) : DispatchState :=
  items.foldl process_one st

/-- Spacing property for a list of performed sends: any two successful
sends to the same recipient start at least min_message_interval apart. -/
def WellSpaced (l : List SendRecord) : Prop :=
  ∀ i < l.length, ∀ j < l.length, i < j →
    (l.getD i (SendRecord.mk 0 0 false)).ok = true →
    (l.getD j (SendRecord.mk 0 0 false)).ok = true →
    (l.getD i (SendRecord.mk 0 0 false)).chat_id = (l.getD j (SendRecord.mk 0 0 false)).chat_id →
    (l.getD i (SendRecord.mk 0 0 false)).start + min_message_interval ≤
      (l.getD j (SendRecord.mk 0 0 false)).start

instance (l : List SendRecord) : Decidable (WellSpaced l) := by
  unfold WellSpaced
  exact Nat.decidableBallLT _ _

/-- The overage figure both overage checkers compute at lines 674-678 and
1130-1134: round-trip the rounded GB values through bytes, clamp at zero,
and convert back to GB. -/
def overage_gb_calc (used_gb total_gb : ℚ) : ℚ :=
  let total_gb_bytes := if 0 < total_gb then total_gb * gib else 0
  let used_gb_bytes := if 0 < used_gb then used_gb * gib else 0
  let overage_bytes := if total_gb_bytes < used_gb_bytes then used_gb_bytes - total_gb_bytes else 0
  overage_bytes / gib

/-- Observables of the traffic path that the plan-expiration subtree never
touches: the 70-percent and exhaustion message counts, the two traffic
warning flags, the exhaustion anchor and the staged updates. -/
def Pres (st stq : MonState) : Prop :=
  countKind MsgKind.warn70 stq.queued = countKind MsgKind.warn70 st.queued ∧
  countKind MsgKind.exhausted stq.queued = countKind MsgKind.exhausted st.queued ∧
  stq.db.warned_70_percent = st.db.warned_70_percent ∧
  stq.db.warned_100_percent = st.db.warned_100_percent ∧
  stq.db.exhausted_at = st.db.exhausted_at ∧
  stq.pending_updates = st.pending_updates

/-- Monotonicity of the four idempotency flags: a flag that is true in the
persisted record stays true. -/
def FlagsMono (st stq : MonState) : Prop :=
  (st.db.warned_70_percent = true → stq.db.warned_70_percent = true) ∧
  (st.db.warned_100_percent = true → stq.db.warned_100_percent = true) ∧
  (st.db.warned_one_week = true → stq.db.warned_one_week = true) ∧
  (st.db.warned_expired = true → stq.db.warned_expired = true)

/-- Spacing property over every performed send (delivery failures
included): the formalization of never performing two sends to one
recipient less than min_message_interval apart. -/
def AttemptsSpaced (l : List SendRecord) : Prop :=
  ∀ i < l.length, ∀ j < l.length, i < j →
    (l.getD i (SendRecord.mk 0 0 false)).chat_id = (l.getD j (SendRecord.mk 0 0 false)).chat_id →
    (l.getD i (SendRecord.mk 0 0 false)).start + min_message_interval ≤
      (l.getD j (SendRecord.mk 0 0 false)).start

/-- Invariant carried by the dispatcher worker: performed successful sends
are well spaced, and every successful send to a recipient started no later
than the recorded last_message_time for that recipient. -/
def DispatchInv (st : DispatchState) : Prop :=
  WellSpaced st.sends ∧
  ∀ r ∈ st.sends, r.ok = true →
    r.start ≤ lookup_last st.last_message_time r.chat_id

/-
Concrete fixtures used by the witnesses and counterexamples.
-/

/-- A collaborator environment where everything succeeds. -/
def fxEnv : Env := ⟨500000, true, true, true⟩

/-- Environment inside the 24-hour grace window relative to anchor 0. -/
def fxEnvIn : Env := ⟨1000, true, true, true⟩

/-- Environment past the 24-hour grace window relative to anchor 0. -/
def fxEnvLate : Env := ⟨200000, true, true, true⟩

/-- Environment exactly 24 hours after anchor 0. -/
def fxEnv24 : Env := ⟨86400, true, true, true⟩

/-- Environment whose clock is far past an expiry at time 0. -/
def fxEnvPlan : Env := ⟨1000000, true, true, true⟩

/-- An active open-ended (volume) service with all flags clear. -/
def fxVol : Service := ⟨1, 7, Status.active, false, false, false, false, none, none, none, none⟩

/-- An active service with all four warning flags already set. -/
def fxAllWarned : Service := ⟨5, 13, Status.active, true, true, true, true, none, none, none, none⟩

/-- A disabled volume service whose exhaustion anchor is time 0. -/
def fxDisabled : Service :=
  ⟨3, 11, Status.disabled, false, true, false, false, some 0, none, none, none⟩

/-- A disabled plan service whose expiration anchor is time 0. -/
def fxExpiredDisabled : Service :=
  ⟨4, 12, Status.disabled, false, false, false, true, none, some 0, some 0, some 2⟩

/-- An active plan service whose expiry date (time 0) is already past. -/
def fxExpiredPlan : Service :=
  ⟨6, 14, Status.active, false, false, false, false, none, none, some 0, some 9⟩

/-- Panel counters at exactly 100 percent of a 10 GiB quota. -/
def fxClientFull : ClientDetails := ⟨10 * gib, 10 * gib, 0, 0, 0⟩

/-- Panel counters at 75 percent of a 10 GiB quota. -/
def fxClient75 : ClientDetails := ⟨10 * gib, 15 * gib / 2, 0, 0, 0⟩

/-- Panel counters for an unlimited service (zero total) with usage. -/
def fxClientUnl : ClientDetails := ⟨0, 5 * gib, 0, 0, 0⟩

/-- Monitoring state holding fxVol. -/
def fxSt : MonState := ⟨fxVol, false, true, [], [], [], []⟩

/-- Monitoring state holding fxAllWarned. -/
def fxStAll : MonState := ⟨fxAllWarned, false, true, [], [], [], []⟩

/-- Monitoring state holding fxDisabled. -/
def fxStDisabled : MonState := ⟨fxDisabled, false, true, [], [], [], []⟩

/-- Monitoring state holding fxExpiredDisabled. -/
def fxStExpiredDisabled : MonState := ⟨fxExpiredDisabled, false, true, [], [], [], []⟩

/-- Monitoring state holding fxExpiredPlan. -/
def fxStPlan : MonState := ⟨fxExpiredPlan, false, true, [], [], [], []⟩

/-- Two messages for recipient 1 queued back to back, the first of which
fails to deliver instantly. -/
def fxItems : List QueueItem := [⟨1, 0, 0, false⟩, ⟨1, 0, 0, true⟩]

/-- Ten immediately available messages for recipient 1, all delivered. -/
def fxTen : List QueueItem :=
  [⟨1, 0, 0, true⟩, ⟨1, 0, 0, true⟩, ⟨1, 0, 0, true⟩, ⟨1, 0, 0, true⟩, ⟨1, 0, 0, true⟩,
   ⟨1, 0, 0, true⟩, ⟨1, 0, 0, true⟩, ⟨1, 0, 0, true⟩, ⟨1, 0, 0, true⟩, ⟨1, 0, 0, true⟩]

/-- Fresh dispatcher state with event-loop clock at 5. -/
def fxD0 : DispatchState := ⟨5, [], []⟩

/-
Helper lemmas: closed forms of the leaf functions and counting facts.
-/

theorem gib_pos : 0 < gib := by norm_num [gib]

theorem countKind_append (k : MsgKind) (l1 l2 : List Msg) :
    countKind k (l1 ++ l2) = countKind k l1 + countKind k l2 := by
  simp [countKind, List.countP_append]

theorem countKind_if (k : MsgKind) (c : Prop) [Decidable c] (l1 l2 : List Msg) :
    countKind k (if c then l1 else l2) =
      if c then countKind k l1 else countKind k l2 := by
  split <;> rfl

theorem send_70_percent_warning_eq (env : Env) (s : Service) (st : MonState) :
    send_70_percent_warning env s st =
      { st with queued := st.queued ++
          (if env.user_exists = true ∧ st.db.warned_70_percent = false
           then [Msg.mk s.user_id MsgKind.warn70] else []) } := by
  unfold send_70_percent_warning
  split_ifs with h1 h2 <;> simp_all

theorem send_exhaustion_notification_eq (env : Env) (s : Service) (st : MonState) :
    send_exhaustion_notification env s st =
      if env.user_exists = true ∧ st.db.warned_100_percent = false then
        { st with queued := st.queued ++ [Msg.mk s.user_id MsgKind.exhausted]
                  db := { st.db with warned_100_percent := true } }
      else st := by
  unfold send_exhaustion_notification
  split_ifs with h1 h2 <;> simp_all

theorem send_three_days_expiration_warning_eq (env : Env) (s : Service)
    (d : ℤ) (st : MonState) :
    send_three_days_expiration_warning env s d st =
      { st with queued := st.queued ++
          (if env.user_exists = true then [Msg.mk s.user_id MsgKind.three_day_warning] else []) } := by
  unfold send_three_days_expiration_warning
  split_ifs with h1 <;> simp_all

theorem send_plan_expiration_notification_eq (env : Env) (s : Service) (st : MonState) :
    send_plan_expiration_notification env s st =
      if env.user_exists = true ∧ st.db.warned_expired = false then
        { st with queued := st.queued ++ [Msg.mk s.user_id MsgKind.plan_expired]
                  db := { st.db with warned_expired := true } }
      else st := by
  unfold send_plan_expiration_notification
  split_ifs with h1 h2 <;> simp_all

theorem delete_service_for_overage_eq (env : Env) (s : Service)
    (p g : ℚ) (st : MonState) :
    delete_service_for_overage env s p g st =
      { st with
          panel := st.panel ++
            (if env.login_ok = true then [PanelCall.delete_client s.id] else [])
          deleted := true
          is_active := false
          direct := st.direct ++
            (if env.user_exists = true then [Msg.mk s.user_id MsgKind.overage_deleted] else []) } := by
  unfold delete_service_for_overage
  split_ifs with h1 h2 h2 <;> simp_all

theorem delete_exhausted_service_eq (env : Env) (s : Service) (st : MonState) :
    delete_exhausted_service env s st =
      { st with
          panel := st.panel ++
            (if env.login_ok = true then [PanelCall.delete_client s.id] else [])
          deleted := true
          is_active := false
          direct := st.direct ++
            (if env.user_exists = true then [Msg.mk s.user_id MsgKind.exhausted_deleted] else []) } := by
  unfold delete_exhausted_service
  split_ifs with h1 h2 h2 <;> simp_all

theorem delete_expired_plan_service_eq (env : Env) (s : Service) (st : MonState) :
    delete_expired_plan_service env s st =
      { st with
          panel := st.panel ++
            (if env.login_ok = true then [PanelCall.delete_client s.id] else [])
          deleted := true
          is_active := false
          direct := st.direct ++
            (if env.user_exists = true then [Msg.mk s.user_id MsgKind.expired_plan_deleted] else []) } := by
  unfold delete_expired_plan_service
  split_ifs with h1 h2 h2 <;> simp_all

theorem handle_traffic_exhausted_eq (env : Env) (s : Service) (st : MonState) :
    handle_traffic_exhausted env s st =
      if s.status = Status.disabled then st
      else if env.login_ok = false then st
      else if env.disable_ok = false then
        { st with panel := st.panel ++ [PanelCall.disable_client s.id] }
      else if env.user_exists = true ∧ st.db.warned_100_percent = false then
        { st with
            panel := st.panel ++ [PanelCall.disable_client s.id]
            db := { st.db with status := Status.disabled
                               exhausted_at := some env.now
                               warned_100_percent := true }
            queued := st.queued ++ [Msg.mk s.user_id MsgKind.exhausted] }
      else
        { st with
            panel := st.panel ++ [PanelCall.disable_client s.id]
            db := { st.db with status := Status.disabled, exhausted_at := some env.now } } := by
  unfold handle_traffic_exhausted
  simp only [send_exhaustion_notification_eq]

theorem handle_plan_expiration_eq (env : Env) (s : Service) (st : MonState) :
    handle_plan_expiration env s st =
      if env.login_ok = false then st
      else if env.disable_ok = false then
        { st with panel := st.panel ++ [PanelCall.disable_client s.id] }
      else if env.user_exists = true ∧ st.db.warned_expired = false then
        { st with
            panel := st.panel ++ [PanelCall.disable_client s.id]
            db := { st.db with status := Status.disabled
                               expired_at := some env.now
                               warned_expired := true }
            queued := st.queued ++ [Msg.mk s.user_id MsgKind.plan_expired] }
      else
        { st with
            panel := st.panel ++ [PanelCall.disable_client s.id]
            db := { st.db with status := Status.disabled, expired_at := some env.now } } := by
  unfold handle_plan_expiration
  simp only [send_plan_expiration_notification_eq]

theorem countKind_nil (k : MsgKind) : countKind k [] = 0 := rfl

theorem countKind_cons (k : MsgKind) (m : Msg) (l : List Msg) :
    countKind k (m :: l) = countKind k l + (if m.kind = k then 1 else 0) := by
  simp [countKind, List.countP_cons, beq_iff_eq]

theorem overage_gb_calc_eq (u t : ℚ) (hu : 0 ≤ u) (ht : 0 ≤ t) :
    overage_gb_calc u t = max 0 (u - t) := by
  have hg := gib_pos
  have h1 : (if 0 < u then u * gib else 0) = u * gib := by
    rcases eq_or_lt_of_le hu with h | h
    · simp [← h]
    · simp [h]
  have h2 : (if 0 < t then t * gib else 0) = t * gib := by
    rcases eq_or_lt_of_le ht with h | h
    · simp [← h]
    · simp [h]
  simp only [overage_gb_calc]
  rw [h1, h2]
  rcases lt_or_le (t * gib) (u * gib) with h | h
  · rw [if_pos h]
    have htu : t < u := lt_of_mul_lt_mul_right h (le_of_lt hg)
    rw [max_eq_right (by linarith)]
    field_simp
    ring
  · rw [if_neg (not_lt.mpr h)]
    have htu : u ≤ t := le_of_mul_le_mul_right h hg
    rw [max_eq_left (by linarith)]
    simp

theorem check_disabled_service_overage_eq (env : Env) (s : Service)
    (p u t : ℚ) (st : MonState) :
    check_disabled_service_overage env s p u t st =
      match s.exhausted_at with
      | none => st
      | some a =>
        if 24 * 3600 < env.now - a then st
        else if 110 ≤ p ∨ 1 ≤ overage_gb_calc u t then
          delete_service_for_overage env s p (overage_gb_calc u t) st
        else st := by
  unfold check_disabled_service_overage overage_gb_calc
  cases s.exhausted_at <;> rfl

theorem check_expired_service_overage_eq (env : Env) (s : Service)
    (p u t : ℚ) (st : MonState) :
    check_expired_service_overage env s p u t st =
      match s.expired_at with
      | none => st
      | some a =>
        if 24 * 3600 < env.now - a then st
        else if 110 ≤ p ∨ 1 ≤ overage_gb_calc u t then
          delete_service_for_overage env s p (overage_gb_calc u t) st
        else st := by
  unfold check_expired_service_overage overage_gb_calc
  cases s.expired_at <;> rfl

theorem pres_refl (st : MonState) : Pres st st :=
  ⟨rfl, rfl, rfl, rfl, rfl, rfl⟩

theorem pres_trans {a b c : MonState} (h1 : Pres a b) (h2 : Pres b c) : Pres a c :=
  ⟨h2.1.trans h1.1, h2.2.1.trans h1.2.1, h2.2.2.1.trans h1.2.2.1,
   h2.2.2.2.1.trans h1.2.2.2.1, h2.2.2.2.2.1.trans h1.2.2.2.2.1,
   h2.2.2.2.2.2.trans h1.2.2.2.2.2⟩

theorem pres_delete_service_for_overage (env : Env) (s : Service) (p g : ℚ)
    (st : MonState) : Pres st (delete_service_for_overage env s p g st) := by
  rw [delete_service_for_overage_eq]
  exact ⟨rfl, rfl, rfl, rfl, rfl, rfl⟩

theorem pres_check_expired_service_overage (env : Env) (s : Service)
    (p u t : ℚ) (st : MonState) :
    Pres st (check_expired_service_overage env s p u t st) := by
  rw [check_expired_service_overage_eq]
  split
  · exact pres_refl st
  · split_ifs
    · exact pres_refl st
    · exact pres_delete_service_for_overage env s p _ st
    · exact pres_refl st

theorem pres_handle_plan_expiration (env : Env) (s : Service) (st : MonState) :
    Pres st (handle_plan_expiration env s st) := by
  rw [handle_plan_expiration_eq]
  split_ifs <;>
    refine ⟨?_, ?_, ?_, ?_, ?_, ?_⟩ <;>
    simp [countKind_append, countKind_cons, countKind_nil]

theorem pres_three_day_branch (env : Env) (s : Service) (d : ℤ) (st : MonState) :
    Pres st { send_three_days_expiration_warning env s d st with
              db := { (send_three_days_expiration_warning env s d st).db with
                      warned_one_week := true } } := by
  rw [send_three_days_expiration_warning_eq]
  refine ⟨?_, ?_, ?_, ?_, ?_, ?_⟩ <;>
    simp [countKind_append, countKind_cons, countKind_nil, countKind_if]

theorem check_plan_expiration_effects (env : Env) (s : Service)
    (c : ClientDetails) (st : MonState) :
    Pres st (check_plan_expiration env s c st) := by
  cases hp : s.product_id <;> cases he : s.expires_at <;>
    simp only [check_plan_expiration, hp, he] <;>
    try exact pres_refl st
  split_ifs <;> try split
  all_goals
    first
      | exact pres_refl _
      | apply pres_check_expired_service_overage
      | apply pres_handle_plan_expiration
      | apply pres_three_day_branch
      | exact pres_trans (pres_three_day_branch env s _ st)
          (pres_handle_plan_expiration env s _)
      | exact pres_trans (pres_three_day_branch env s _ st)
          (pres_check_expired_service_overage env s _ _ _ _)

theorem delete_service_for_overage_db (env : Env) (s : Service) (p g : ℚ)
    (st : MonState) : (delete_service_for_overage env s p g st).db = st.db := by
  rw [delete_service_for_overage_eq]

theorem delete_service_for_overage_queued (env : Env) (s : Service) (p g : ℚ)
    (st : MonState) : (delete_service_for_overage env s p g st).queued = st.queued := by
  rw [delete_service_for_overage_eq]

theorem check_disabled_service_overage_db (env : Env) (s : Service) (p u t : ℚ)
    (st : MonState) : (check_disabled_service_overage env s p u t st).db = st.db := by
  rw [check_disabled_service_overage_eq]
  split
  · rfl
  · split_ifs <;> simp [delete_service_for_overage_db]

theorem check_disabled_service_overage_queued (env : Env) (s : Service) (p u t : ℚ)
    (st : MonState) :
    (check_disabled_service_overage env s p u t st).queued = st.queued := by
  rw [check_disabled_service_overage_eq]
  split
  · rfl
  · split_ifs <;> simp [delete_service_for_overage_queued]

theorem check_disabled_service_overage_pending (env : Env) (s : Service) (p u t : ℚ)
    (st : MonState) :
    (check_disabled_service_overage env s p u t st).pending_updates = st.pending_updates := by
  rw [check_disabled_service_overage_eq]
  split
  · rfl
  · split_ifs <;> simp [delete_service_for_overage_eq]

theorem cpe_count_warn70 (env : Env) (s : Service) (c : ClientDetails) (st : MonState) :
    countKind MsgKind.warn70 (check_plan_expiration env s c st).queued
      = countKind MsgKind.warn70 st.queued :=
  (check_plan_expiration_effects env s c st).1

theorem cpe_count_exhausted (env : Env) (s : Service) (c : ClientDetails) (st : MonState) :
    countKind MsgKind.exhausted (check_plan_expiration env s c st).queued
      = countKind MsgKind.exhausted st.queued :=
  (check_plan_expiration_effects env s c st).2.1

theorem cpe_w70 (env : Env) (s : Service) (c : ClientDetails) (st : MonState) :
    (check_plan_expiration env s c st).db.warned_70_percent = st.db.warned_70_percent :=
  (check_plan_expiration_effects env s c st).2.2.1

theorem cpe_w100 (env : Env) (s : Service) (c : ClientDetails) (st : MonState) :
    (check_plan_expiration env s c st).db.warned_100_percent = st.db.warned_100_percent :=
  (check_plan_expiration_effects env s c st).2.2.2.1

theorem cpe_exhausted_at (env : Env) (s : Service) (c : ClientDetails) (st : MonState) :
    (check_plan_expiration env s c st).db.exhausted_at = st.db.exhausted_at :=
  (check_plan_expiration_effects env s c st).2.2.2.2.1

theorem cpe_pending (env : Env) (s : Service) (c : ClientDetails) (st : MonState) :
    (check_plan_expiration env s c st).pending_updates = st.pending_updates :=
  (check_plan_expiration_effects env s c st).2.2.2.2.2

theorem ceso_db (env : Env) (s : Service) (p u t : ℚ) (st : MonState) :
    (check_expired_service_overage env s p u t st).db = st.db := by
  rw [check_expired_service_overage_eq]
  split
  · rfl
  · split_ifs <;> simp [delete_service_for_overage_db]

theorem cpe_status_of_disabled (env : Env) (s : Service) (c : ClientDetails)
    (st : MonState) (h : s.status = Status.disabled) :
    (check_plan_expiration env s c st).db.status = st.db.status := by
  cases hp : s.product_id <;> cases he : s.expires_at <;>
    simp only [check_plan_expiration, hp, he] <;> try rfl
  split_ifs <;> try split
  all_goals
    solve
      | rfl
      | (exfalso; simp_all)
      | simp [ceso_db, send_three_days_expiration_warning_eq]


theorem evalOnce_disabled_stable (env : Env) (c : ClientDetails) (st : MonState)
    (h : st.db.status = Status.disabled) :
    (evalOnce env c st).db.status = Status.disabled ∧
    countKind MsgKind.exhausted (evalOnce env c st).queued
      = countKind MsgKind.exhausted st.queued := by
  unfold evalOnce
  split_ifs with hdel
  · exact ⟨h, rfl⟩
  simp only [process_client_traffic]
  split_ifs with hplan hlim hrange hflag h100 hnd hnd
  all_goals
    simp_all [cpe_status_of_disabled, cpe_count_exhausted, cpe_w70,
      handle_traffic_exhausted_eq, check_disabled_service_overage_db,
      check_disabled_service_overage_queued,
      countKind_append, countKind_cons, countKind_nil]

theorem evalMany_disabled_stable (steps : List (Env × ClientDetails)) (st : MonState)
    (h : st.db.status = Status.disabled) :
    (evalMany steps st).db.status = Status.disabled ∧
    countKind MsgKind.exhausted (evalMany steps st).queued
      = countKind MsgKind.exhausted st.queued := by
  induction steps generalizing st with
  | nil => exact ⟨h, rfl⟩
  | cons p rest ih =>
    have h1 := evalOnce_disabled_stable p.1 p.2 st h
    have h2 := ih (evalOnce p.1 p.2 st) h1.1
    exact ⟨h2.1, h2.2.trans h1.2⟩


/-- Claim C1: for a service with positive resolved total, status active and
the exhaustion flag clear, one evaluation that observes used at least total
(usage at or above 100 percent) disables the service, sets the exhaustion
anchor, and queues exactly one exhaustion notification; repeated further
evaluations with arbitrary inputs never queue a second one (statuses are
never reset by the monitor).  Collaborator success (panel login, disable,
user lookup) is assumed, matching the error model of the spec. -/
theorem C1_exhaustion_exactly_once (env : Env) (client : ClientDetails)
    (st : MonState) (steps : List (Env × ClientDetails))
    (hdel : st.deleted = false)
    (hact : st.db.status = Status.active)
    (hw100 : st.db.warned_100_percent = false)
    (hq : countKind MsgKind.exhausted st.queued = 0)
    (htot : 0 < resolved_total_traffic client)
    (hused : resolved_total_traffic client ≤ resolved_used_traffic client)
    (hlogin : env.login_ok = true)
    (hdisable : env.disable_ok = true)
    (huser : env.user_exists = true) :
    (evalOnce env client st).db.status = Status.disabled ∧
    (evalOnce env client st).db.exhausted_at = some env.now ∧
    countKind MsgKind.exhausted (evalOnce env client st).queued = 1 ∧
    countKind MsgKind.exhausted (evalMany steps (evalOnce env client st)).queued = 1 := by
  have hpct : 100 ≤ resolved_used_traffic client / resolved_total_traffic client * 100 := by
    have h1 : (1 : ℚ) ≤ resolved_used_traffic client / resolved_total_traffic client :=
      (one_le_div htot).mpr hused
    nlinarith
  have hnrange : ¬ (70 ≤ resolved_used_traffic client / resolved_total_traffic client * 100 ∧
      resolved_used_traffic client / resolved_total_traffic client * 100 < 100) := by
    rintro ⟨-, hlt⟩
    exact absurd hpct (not_le.mpr hlt)
  have hw100st1 :
      (if st.db.product_id.isSome then check_plan_expiration env st.db client st else st).db.warned_100_percent
        = false := by
    split
    · rw [cpe_w100]; exact hw100
    · exact hw100
  have hcnt1 :
      countKind MsgKind.exhausted
        (if st.db.product_id.isSome then check_plan_expiration env st.db client st else st).queued
        = countKind MsgKind.exhausted st.queued := by
    split
    · rw [cpe_count_exhausted]
    · rfl
  have key : (evalOnce env client st).db.status = Status.disabled ∧
      (evalOnce env client st).db.exhausted_at = some env.now ∧
      countKind MsgKind.exhausted (evalOnce env client st).queued = 1 := by
    unfold evalOnce
    rw [if_neg (by simp [hdel])]
    simp only [process_client_traffic]
    rw [if_neg (not_le.mpr htot), if_neg hnrange, if_pos hpct,
      if_pos (show st.db.status ≠ Status.disabled by simp [hact])]
    rw [handle_traffic_exhausted_eq]
    rw [if_neg (show ¬ st.db.status = Status.disabled by simp [hact]),
      if_neg (by simp [hlogin]), if_neg (by simp [hdisable])]
    rw [if_pos (by exact ⟨huser, hw100st1⟩)]
    refine ⟨rfl, rfl, ?_⟩
    simp [countKind_append, countKind_cons, countKind_nil, hcnt1, hq]
  refine ⟨key.1, key.2.1, key.2.2, ?_⟩
  have h2 := evalMany_disabled_stable steps (evalOnce env client st) key.1
  rw [h2.2, key.2.2]


theorem flagsMono_refl (st : MonState) : FlagsMono st st :=
  ⟨id, id, id, id⟩

theorem flagsMono_trans {a b c : MonState} (h1 : FlagsMono a b) (h2 : FlagsMono b c) :
    FlagsMono a c :=
  ⟨fun h => h2.1 (h1.1 h), fun h => h2.2.1 (h1.2.1 h),
   fun h => h2.2.2.1 (h1.2.2.1 h), fun h => h2.2.2.2 (h1.2.2.2 h)⟩

theorem flagsMono_of_db_eq {a b : MonState} (h : b.db = a.db) : FlagsMono a b := by
  refine ⟨?_, ?_, ?_, ?_⟩ <;> intro hf <;> rw [h] <;> exact hf

theorem fm_three_day_branch (env : Env) (s : Service) (d : ℤ) (st : MonState) :
    FlagsMono st { send_three_days_expiration_warning env s d st with
                   db := { (send_three_days_expiration_warning env s d st).db with
                           warned_one_week := true } } := by
  rw [send_three_days_expiration_warning_eq]
  exact ⟨fun h => h, fun h => h, fun _ => rfl, fun h => h⟩

theorem fm_handle_plan_expiration (env : Env) (s : Service) (st : MonState) :
    FlagsMono st (handle_plan_expiration env s st) := by
  rw [handle_plan_expiration_eq]
  split_ifs <;> refine ⟨?_, ?_, ?_, ?_⟩ <;>
    first
      | exact fun h => h
      | exact fun _ => rfl

theorem fm_check_expired_service_overage (env : Env) (s : Service) (p u t : ℚ)
    (st : MonState) : FlagsMono st (check_expired_service_overage env s p u t st) :=
  flagsMono_of_db_eq (ceso_db env s p u t st)

theorem cpe_flags_mono (env : Env) (s : Service) (c : ClientDetails) (st : MonState) :
    FlagsMono st (check_plan_expiration env s c st) := by
  cases hp : s.product_id <;> cases he : s.expires_at <;>
    simp only [check_plan_expiration, hp, he] <;>
    try exact flagsMono_refl st
  split_ifs <;> try split
  all_goals
    solve
      | exact flagsMono_refl _
      | apply fm_check_expired_service_overage
      | apply fm_handle_plan_expiration
      | apply fm_three_day_branch
      | exact flagsMono_trans (fm_three_day_branch env s _ st)
          (fm_handle_plan_expiration env s _)
      | exact flagsMono_trans (fm_three_day_branch env s _ st)
          (fm_check_expired_service_overage env s _ _ _ _)

theorem fm_handle_traffic_exhausted (env : Env) (s : Service) (st : MonState) :
    FlagsMono st (handle_traffic_exhausted env s st) := by
  rw [handle_traffic_exhausted_eq]
  split_ifs <;> refine ⟨?_, ?_, ?_, ?_⟩ <;>
    first
      | exact fun h => h
      | exact fun _ => rfl

theorem fm_w70_branch (env : Env) (s : Service) (st : MonState) :
    FlagsMono st { send_70_percent_warning env s st with
                   db := { (send_70_percent_warning env s st).db with
                           warned_70_percent := true } } := by
  rw [send_70_percent_warning_eq]
  exact ⟨fun _ => rfl, fun h => h, fun h => h, fun h => h⟩

theorem fm_check_disabled_service_overage (env : Env) (s : Service) (p u t : ℚ)
    (st : MonState) : FlagsMono st (check_disabled_service_overage env s p u t st) :=
  flagsMono_of_db_eq (check_disabled_service_overage_db env s p u t st)

theorem evalOnce_flags_mono (env : Env) (c : ClientDetails) (st : MonState) :
    FlagsMono st (evalOnce env c st) := by
  unfold evalOnce
  split_ifs with hdel
  · exact flagsMono_refl st
  simp only [process_client_traffic]
  have h1 : FlagsMono st
      (if st.db.product_id.isSome then check_plan_expiration env st.db c st else st) := by
    split
    · exact cpe_flags_mono env st.db c st
    · exact flagsMono_refl st
  refine flagsMono_trans h1 ?_
  set st1 := if st.db.product_id.isSome then check_plan_expiration env st.db c st else st
  have h2 : FlagsMono st1 { st1 with pending_updates := st1.pending_updates ++ [staged_entry st.db c] } :=
    flagsMono_of_db_eq rfl
  refine flagsMono_trans h2 ?_
  set st2 := { st1 with pending_updates := st1.pending_updates ++ [staged_entry st.db c] }
  split_ifs
  all_goals
    solve
      | exact flagsMono_refl _
      | apply fm_handle_traffic_exhausted
      | apply fm_check_disabled_service_overage
      | apply fm_w70_branch
      | exact flagsMono_trans (fm_w70_branch env st.db st2)
          (fm_handle_traffic_exhausted env st.db _)
      | exact flagsMono_trans (fm_w70_branch env st.db st2)
          (fm_check_disabled_service_overage env st.db _ _ _ _)


theorem ceso_queued (env : Env) (s : Service) (p u t : ℚ) (st : MonState) :
    (check_expired_service_overage env s p u t st).queued = st.queued := by
  rw [check_expired_service_overage_eq]
  split
  · rfl
  · split_ifs <;> simp [delete_service_for_overage_queued]

theorem hte_count_ne (env : Env) (s : Service) (st : MonState) (k : MsgKind)
    (h : k ≠ MsgKind.exhausted) :
    countKind k (handle_traffic_exhausted env s st).queued = countKind k st.queued := by
  rw [handle_traffic_exhausted_eq]
  split_ifs <;>
    simp [countKind_append, countKind_cons, countKind_nil, Ne.symm h]

theorem hpe_count_ne (env : Env) (s : Service) (st : MonState) (k : MsgKind)
    (h : k ≠ MsgKind.plan_expired) :
    countKind k (handle_plan_expiration env s st).queued = countKind k st.queued := by
  rw [handle_plan_expiration_eq]
  split_ifs <;>
    simp [countKind_append, countKind_cons, countKind_nil, Ne.symm h]

theorem hte_count_exhausted_of_warned (env : Env) (s : Service) (st : MonState)
    (h : st.db.warned_100_percent = true) :
    countKind MsgKind.exhausted (handle_traffic_exhausted env s st).queued
      = countKind MsgKind.exhausted st.queued := by
  rw [handle_traffic_exhausted_eq]
  split_ifs with h1 h2 h3 h4 <;> try rfl
  exact absurd h4.2 (by simp [h])

theorem hpe_count_plan_expired_of_warned (env : Env) (s : Service) (st : MonState)
    (h : st.db.warned_expired = true) :
    countKind MsgKind.plan_expired (handle_plan_expiration env s st).queued
      = countKind MsgKind.plan_expired st.queued := by
  rw [handle_plan_expiration_eq]
  split_ifs with h1 h2 h3 <;> try rfl
  exact absurd h3.2 (by simp [h])

theorem cpe_count_three_day_of_warned (env : Env) (s : Service) (c : ClientDetails)
    (st : MonState) (h : s.warned_one_week = true) :
    countKind MsgKind.three_day_warning (check_plan_expiration env s c st).queued
      = countKind MsgKind.three_day_warning st.queued := by
  cases hp : s.product_id <;> cases he : s.expires_at <;>
    simp only [check_plan_expiration, hp, he] <;> try rfl
  rename_i pid e
  have hc : (⌊(e - env.now) / 86400⌋ ≤ 3 ∧ 0 < ⌊(e - env.now) / 86400⌋ ∧
      s.warned_one_week = false) = False := by
    simp [h]
  simp only [hc, if_false]
  split_ifs <;> try split
  all_goals
    solve
      | rfl
      | exact hpe_count_ne env s _ _ (by simp)
      | rw [ceso_queued]

theorem cpe_count_plan_expired_of_warned (env : Env) (s : Service) (c : ClientDetails)
    (st : MonState) (h : st.db.warned_expired = true) :
    countKind MsgKind.plan_expired (check_plan_expiration env s c st).queued
      = countKind MsgKind.plan_expired st.queued := by
  have h3day : ∀ d : ℤ,
      countKind MsgKind.plan_expired
        ({ send_three_days_expiration_warning env s d st with
           db := { (send_three_days_expiration_warning env s d st).db with
                   warned_one_week := true } }).queued
        = countKind MsgKind.plan_expired st.queued := by
    intro d
    rw [send_three_days_expiration_warning_eq]
    simp [countKind_append, countKind_cons, countKind_nil, countKind_if]
  have h3dayw : ∀ d : ℤ,
      ({ send_three_days_expiration_warning env s d st with
         db := { (send_three_days_expiration_warning env s d st).db with
                 warned_one_week := true } }).db.warned_expired = true := by
    intro d
    rw [send_three_days_expiration_warning_eq]
    exact h
  cases hp : s.product_id <;> cases he : s.expires_at <;>
    simp only [check_plan_expiration, hp, he] <;> try rfl
  rename_i pid e
  split_ifs <;> try split
  all_goals
    try solve
      | rfl
      | exact hpe_count_plan_expired_of_warned env s st h
      | exact (hpe_count_plan_expired_of_warned env s _
          (h3dayw ⌊(e - env.now) / 86400⌋)).trans (h3day ⌊(e - env.now) / 86400⌋)
      | exact h3day ⌊(e - env.now) / 86400⌋
  all_goals rw [ceso_queued]
  all_goals exact h3day ⌊(e - env.now) / 86400⌋

theorem evalOnce_count_warn70_of_warned (env : Env) (c : ClientDetails)
    (st : MonState) (h : st.db.warned_70_percent = true) :
    countKind MsgKind.warn70 (evalOnce env c st).queued
      = countKind MsgKind.warn70 st.queued := by
  unfold evalOnce
  split_ifs with hdel
  · rfl
  simp only [process_client_traffic]
  split_ifs <;> try (solve | (exfalso; simp_all))
  all_goals try rw [hte_count_ne env st.db _ _ (by simp)]
  all_goals try rw [check_disabled_service_overage_queued]
  all_goals try dsimp only
  all_goals try split
  all_goals first | rw [cpe_count_warn70] | rfl

theorem evalOnce_count_exhausted_of_warned (env : Env) (c : ClientDetails)
    (st : MonState) (h : st.db.warned_100_percent = true) :
    countKind MsgKind.exhausted (evalOnce env c st).queued
      = countKind MsgKind.exhausted st.queued := by
  unfold evalOnce
  split_ifs with hdel
  · rfl
  simp only [process_client_traffic]
  split_ifs
  all_goals try rw [check_disabled_service_overage_queued]
  all_goals
    try rw [hte_count_exhausted_of_warned env st.db _ (by
      dsimp only
      try rw [send_70_percent_warning_eq]
      try dsimp only
      try rw [cpe_w100]
      exact h)]
  all_goals try dsimp only
  all_goals try rw [send_70_percent_warning_eq]
  all_goals try dsimp only
  all_goals
    try simp [countKind_append, countKind_if, countKind_cons, countKind_nil]
  all_goals first | rw [cpe_count_exhausted] | rfl


theorem evalOnce_count_three_day_of_warned (env : Env) (c : ClientDetails)
    (st : MonState) (h : st.db.warned_one_week = true) :
    countKind MsgKind.three_day_warning (evalOnce env c st).queued
      = countKind MsgKind.three_day_warning st.queued := by
  unfold evalOnce
  split_ifs with hdel
  · rfl
  simp only [process_client_traffic]
  split_ifs
  all_goals try rw [hte_count_ne env st.db _ _ (by simp)]
  all_goals try rw [check_disabled_service_overage_queued]
  all_goals try dsimp only
  all_goals try rw [send_70_percent_warning_eq]
  all_goals try dsimp only
  all_goals
    try simp [countKind_append, countKind_if, countKind_cons, countKind_nil]
  all_goals first | exact cpe_count_three_day_of_warned env st.db c st h | rfl

theorem evalOnce_count_plan_expired_of_warned (env : Env) (c : ClientDetails)
    (st : MonState) (h : st.db.warned_expired = true) :
    countKind MsgKind.plan_expired (evalOnce env c st).queued
      = countKind MsgKind.plan_expired st.queued := by
  unfold evalOnce
  split_ifs with hdel
  · rfl
  simp only [process_client_traffic]
  split_ifs
  all_goals try rw [hte_count_ne env st.db _ _ (by simp)]
  all_goals try rw [check_disabled_service_overage_queued]
  all_goals try dsimp only
  all_goals try rw [send_70_percent_warning_eq]
  all_goals try dsimp only
  all_goals
    try simp [countKind_append, countKind_if, countKind_cons, countKind_nil]
  all_goals first | exact cpe_count_plan_expired_of_warned env st.db c st h | rfl

/-- Claim C2: the monitor only ever raises the four warning flags (never
resets one), and a flag that is already set in the store gates its
notification path: re-running the evaluator on a state whose flag is true
queues no further notification of that kind, whatever the live counters
and collaborator outcomes are. -/
theorem C2_flags_monotone_and_gate_once (env : Env) (c : ClientDetails) (st : MonState) :
    (st.db.warned_70_percent = true → (evalOnce env c st).db.warned_70_percent = true) ∧
    (st.db.warned_100_percent = true → (evalOnce env c st).db.warned_100_percent = true) ∧
    (st.db.warned_one_week = true → (evalOnce env c st).db.warned_one_week = true) ∧
    (st.db.warned_expired = true → (evalOnce env c st).db.warned_expired = true) ∧
    (st.db.warned_70_percent = true →
      countKind MsgKind.warn70 (evalOnce env c st).queued
        = countKind MsgKind.warn70 st.queued) ∧
    (st.db.warned_100_percent = true →
      countKind MsgKind.exhausted (evalOnce env c st).queued
        = countKind MsgKind.exhausted st.queued) ∧
    (st.db.warned_one_week = true →
      countKind MsgKind.three_day_warning (evalOnce env c st).queued
        = countKind MsgKind.three_day_warning st.queued) ∧
    (st.db.warned_expired = true →
      countKind MsgKind.plan_expired (evalOnce env c st).queued
        = countKind MsgKind.plan_expired st.queued) := by
  have hm := evalOnce_flags_mono env c st
  exact ⟨hm.1, hm.2.1, hm.2.2.1, hm.2.2.2,
    evalOnce_count_warn70_of_warned env c st,
    evalOnce_count_exhausted_of_warned env c st,
    evalOnce_count_three_day_of_warned env c st,
    evalOnce_count_plan_expired_of_warned env c st⟩


/-- Witness for C1: a 10 GiB volume service observed at exactly 100
percent is disabled with its anchor set and exactly one queued exhaustion
notification, also after one further evaluation. -/
theorem C1_exhaustion_exactly_once_witness :
    (evalOnce fxEnv fxClientFull fxSt).db.status = Status.disabled ∧
    (evalOnce fxEnv fxClientFull fxSt).db.exhausted_at = some fxEnv.now ∧
    countKind MsgKind.exhausted (evalOnce fxEnv fxClientFull fxSt).queued = 1 ∧
    countKind MsgKind.exhausted
      (evalMany [(fxEnv, fxClientFull)] (evalOnce fxEnv fxClientFull fxSt)).queued = 1 :=
  C1_exhaustion_exactly_once fxEnv fxClientFull fxSt [(fxEnv, fxClientFull)]
    rfl rfl rfl rfl
    (by norm_num [resolved_total_traffic, fxClientFull, gib])
    (by norm_num [resolved_total_traffic, resolved_used_traffic, fxClientFull, gib])
    rfl rfl rfl

/-- Witness for C2: on a state whose four flags are all set, one more
evaluation keeps every flag set and queues none of the four flag-gated
notifications. -/
theorem C2_flags_monotone_and_gate_once_witness :
    (evalOnce fxEnv fxClientFull fxStAll).db.warned_70_percent = true ∧
    (evalOnce fxEnv fxClientFull fxStAll).db.warned_100_percent = true ∧
    (evalOnce fxEnv fxClientFull fxStAll).db.warned_one_week = true ∧
    (evalOnce fxEnv fxClientFull fxStAll).db.warned_expired = true ∧
    countKind MsgKind.warn70 (evalOnce fxEnv fxClientFull fxStAll).queued
      = countKind MsgKind.warn70 fxStAll.queued ∧
    countKind MsgKind.exhausted (evalOnce fxEnv fxClientFull fxStAll).queued
      = countKind MsgKind.exhausted fxStAll.queued ∧
    countKind MsgKind.three_day_warning (evalOnce fxEnv fxClientFull fxStAll).queued
      = countKind MsgKind.three_day_warning fxStAll.queued ∧
    countKind MsgKind.plan_expired (evalOnce fxEnv fxClientFull fxStAll).queued
      = countKind MsgKind.plan_expired fxStAll.queued := by
  have h := C2_flags_monotone_and_gate_once fxEnv fxClientFull fxStAll
  exact ⟨h.1 rfl, h.2.1 rfl, h.2.2.1 rfl, h.2.2.2.1 rfl, h.2.2.2.2.1 rfl,
    h.2.2.2.2.2.1 rfl, h.2.2.2.2.2.2.1 rfl, h.2.2.2.2.2.2.2 rfl⟩

/-- Counterexample for C3: at exactly 24 hours after the exhaustion
anchor, now minus the anchor is not strictly below 24h, yet the overage
check still applies and deletes a breaching service (the code only skips
when the difference strictly exceeds 24h). -/
theorem C3_boundary_counterexample :
    fxDisabled.exhausted_at = some 0 ∧
    ¬ (fxEnv24.now - 0 < 24 * 3600) ∧
    (check_disabled_service_overage fxEnv24 fxDisabled 120 12 10 fxStDisabled).deleted = true := by
  refine ⟨rfl, by norm_num [fxEnv24], ?_⟩
  norm_num [check_disabled_service_overage, delete_service_for_overage,
    fxEnv24, fxDisabled, fxStDisabled, gib]

/-- Claim C3 amended: for a disabled service with a grace-period anchor,
the overage check applies only while now minus the anchor is at most 24
hours (not strictly less, as originally claimed); within the window the
overage is the clamped difference of the byte counters, a breach happens
exactly when the percentage reaches 110 or the overage reaches 1 GB, and a
breach deletes the service and its remote client immediately.  Both the
exhaustion-anchored and the expiration-anchored checker satisfy this. -/
theorem C3_overage_rule (env : Env) (s : Service) (p u t : ℚ) (st : MonState) (a : ℚ) :
    (s.exhausted_at = some a → 24 * 3600 < env.now - a →
      check_disabled_service_overage env s p u t st = st) ∧
    (s.exhausted_at = some a → env.now - a ≤ 24 * 3600 → 0 ≤ u → 0 ≤ t →
      overage_gb_calc u t = max 0 (u - t) ∧
      ((110 ≤ p ∨ 1 ≤ max 0 (u - t)) →
        (check_disabled_service_overage env s p u t st).deleted = true ∧
        (check_disabled_service_overage env s p u t st).panel
          = st.panel ++ (if env.login_ok = true then [PanelCall.delete_client s.id] else [])) ∧
      (¬ (110 ≤ p ∨ 1 ≤ max 0 (u - t)) →
        check_disabled_service_overage env s p u t st = st)) ∧
    (s.expired_at = some a → 24 * 3600 < env.now - a →
      check_expired_service_overage env s p u t st = st) ∧
    (s.expired_at = some a → env.now - a ≤ 24 * 3600 → 0 ≤ u → 0 ≤ t →
      overage_gb_calc u t = max 0 (u - t) ∧
      ((110 ≤ p ∨ 1 ≤ max 0 (u - t)) →
        (check_expired_service_overage env s p u t st).deleted = true ∧
        (check_expired_service_overage env s p u t st).panel
          = st.panel ++ (if env.login_ok = true then [PanelCall.delete_client s.id] else [])) ∧
      (¬ (110 ≤ p ∨ 1 ≤ max 0 (u - t)) →
        check_expired_service_overage env s p u t st = st)) := by
  refine ⟨?_, ?_, ?_, ?_⟩
  · intro ha hlate
    simp only [check_disabled_service_overage_eq, ha]
    rw [if_pos hlate]
  · intro ha hin hu ht
    have hov := overage_gb_calc_eq u t hu ht
    refine ⟨hov, ?_, ?_⟩
    · intro hbr
      simp only [check_disabled_service_overage_eq, ha]
      rw [if_neg (not_lt.mpr hin), if_pos (by rw [hov]; exact hbr),
        delete_service_for_overage_eq]
      exact ⟨rfl, rfl⟩
    · intro hbr
      simp only [check_disabled_service_overage_eq, ha]
      rw [if_neg (not_lt.mpr hin), if_neg (by rw [hov]; exact hbr)]
  · intro ha hlate
    simp only [check_expired_service_overage_eq, ha]
    rw [if_pos hlate]
  · intro ha hin hu ht
    have hov := overage_gb_calc_eq u t hu ht
    refine ⟨hov, ?_, ?_⟩
    · intro hbr
      simp only [check_expired_service_overage_eq, ha]
      rw [if_neg (not_lt.mpr hin), if_pos (by rw [hov]; exact hbr),
        delete_service_for_overage_eq]
      exact ⟨rfl, rfl⟩
    · intro hbr
      simp only [check_expired_service_overage_eq, ha]
      rw [if_neg (not_lt.mpr hin), if_neg (by rw [hov]; exact hbr)]

/-- Witness for C3: a breaching disabled service inside the window is
deleted with a remote delete call, and one past the window is untouched;
the same holds for the expiration-anchored checker. -/
theorem C3_overage_rule_witness :
    (check_disabled_service_overage fxEnvIn fxDisabled 120 12 10 fxStDisabled).deleted = true ∧
    check_disabled_service_overage fxEnvLate fxDisabled 120 12 10 fxStDisabled = fxStDisabled ∧
    (check_expired_service_overage fxEnvIn fxExpiredDisabled 120 12 10 fxStExpiredDisabled).deleted = true ∧
    check_expired_service_overage fxEnvLate fxExpiredDisabled 120 12 10 fxStExpiredDisabled
      = fxStExpiredDisabled := by
  refine ⟨?_, ?_, ?_, ?_⟩
  · exact (((C3_overage_rule fxEnvIn fxDisabled 120 12 10 fxStDisabled 0).2.1
      rfl (by norm_num [fxEnvIn]) (by norm_num) (by norm_num)).2.1
      (by norm_num)).1
  · exact (C3_overage_rule fxEnvLate fxDisabled 120 12 10 fxStDisabled 0).1
      rfl (by norm_num [fxEnvLate])
  · exact (((C3_overage_rule fxEnvIn fxExpiredDisabled 120 12 10 fxStExpiredDisabled 0).2.2.2
      rfl (by norm_num [fxEnvIn]) (by norm_num) (by norm_num)).2.1
      (by norm_num)).1
  · exact (C3_overage_rule fxEnvLate fxExpiredDisabled 120 12 10 fxStExpiredDisabled 0).2.2.1
      rfl (by norm_num [fxEnvLate])


theorem cpe_status_of_not_expired (env : Env) (s : Service) (c : ClientDetails)
    (st : MonState) (h : ∀ e, s.expires_at = some e → env.now < e) :
    (check_plan_expiration env s c st).db.status = st.db.status := by
  cases hp : s.product_id <;> cases he : s.expires_at <;>
    simp only [check_plan_expiration, hp, he] <;> try rfl
  rename_i pid e
  rw [if_neg (not_le.mpr (h e he))]
  split_ifs <;> simp [send_three_days_expiration_warning_eq]

theorem cpe_deleted_of_not_expired (env : Env) (s : Service) (c : ClientDetails)
    (st : MonState) (h : ∀ e, s.expires_at = some e → env.now < e) :
    (check_plan_expiration env s c st).deleted = st.deleted := by
  cases hp : s.product_id <;> cases he : s.expires_at <;>
    simp only [check_plan_expiration, hp, he] <;> try rfl
  rename_i pid e
  rw [if_neg (not_le.mpr (h e he))]
  split_ifs <;> simp [send_three_days_expiration_warning_eq]

/-- Counterexample for C4: an active plan service at 75 percent usage
whose expiry date is already past satisfies every precondition of the
claim (band, status, clear flag), and the evaluation does queue the
70-percent warning and set the flag, but the same evaluation disables the
service through the expiry path, so the status does not stay active. -/
theorem C4_expired_plan_counterexample :
    70 ≤ resolved_used_traffic fxClient75 / resolved_total_traffic fxClient75 * 100 ∧
    resolved_used_traffic fxClient75 / resolved_total_traffic fxClient75 * 100 < 100 ∧
    fxStPlan.db.status = Status.active ∧
    fxStPlan.db.warned_70_percent = false ∧
    countKind MsgKind.warn70 (evalOnce fxEnvPlan fxClient75 fxStPlan).queued = 1 ∧
    (evalOnce fxEnvPlan fxClient75 fxStPlan).db.warned_70_percent = true ∧
    (evalOnce fxEnvPlan fxClient75 fxStPlan).db.status = Status.disabled := by
  refine ⟨?_, ?_, rfl, rfl, ?_⟩
  · norm_num [resolved_used_traffic, resolved_total_traffic, fxClient75, gib]
  · norm_num [resolved_used_traffic, resolved_total_traffic, fxClient75, gib]
  · norm_num [evalOnce, process_client_traffic, check_plan_expiration,
      handle_plan_expiration, send_plan_expiration_notification,
      send_70_percent_warning, send_three_days_expiration_warning,
      resolved_total_traffic, resolved_used_traffic, used_gb_of, total_gb_of,
      staged_entry, round4, gib, countKind, List.countP_cons, List.countP_nil,
      beq_iff_eq, fxEnvPlan, fxClient75, fxStPlan, fxExpiredPlan,
      show (Status.active = Status.disabled) = False by simp,
      show (MsgKind.plan_expired = MsgKind.warn70) = False by simp]

/-- Claim C4 amended: a service inside the 70-100 band with a clear flag
and not-disabled status gets exactly one queued 70-percent warning and the
flag set; the status stays active provided the service is not an expired
plan service being disabled by the concurrent expiry path in the same
evaluation (for an expired plan service the warning and the flag still
happen, but the status ends up disabled, as the counterexample shows). -/
theorem C4_warn70_band (env : Env) (c : ClientDetails) (st : MonState)
    (hdel : st.deleted = false)
    (hact : st.db.status = Status.active)
    (hw70 : st.db.warned_70_percent = false)
    (huser : env.user_exists = true)
    (htot : 0 < resolved_total_traffic c)
    (hlo : 70 ≤ resolved_used_traffic c / resolved_total_traffic c * 100)
    (hhi : resolved_used_traffic c / resolved_total_traffic c * 100 < 100)
    (hnoexp : ∀ e, st.db.expires_at = some e → env.now < e) :
    countKind MsgKind.warn70 (evalOnce env c st).queued
      = countKind MsgKind.warn70 st.queued + 1 ∧
    (evalOnce env c st).db.warned_70_percent = true ∧
    (evalOnce env c st).db.status = Status.active := by
  have hst1c :
      countKind MsgKind.warn70
        (if st.db.product_id.isSome then check_plan_expiration env st.db c st else st).queued
        = countKind MsgKind.warn70 st.queued := by
    split
    · rw [cpe_count_warn70]
    · rfl
  have hst1w :
      (if st.db.product_id.isSome then check_plan_expiration env st.db c st else st).db.warned_70_percent
        = false := by
    split
    · rw [cpe_w70]; exact hw70
    · exact hw70
  have hst1s :
      (if st.db.product_id.isSome then check_plan_expiration env st.db c st else st).db.status
        = Status.active := by
    split
    · rw [cpe_status_of_not_expired env st.db c st hnoexp]; exact hact
    · exact hact
  unfold evalOnce
  rw [if_neg (by simp [hdel])]
  simp only [process_client_traffic]
  rw [if_neg (not_le.mpr htot), if_pos (And.intro hlo hhi),
    if_pos (And.intro hw70 (show st.db.status ≠ Status.disabled by simp [hact])),
    if_neg (not_le.mpr hhi)]
  rw [send_70_percent_warning_eq]
  refine ⟨?_, rfl, ?_⟩
  · simp only [countKind_append, countKind_if]
    dsimp only
    rw [hst1c]
    simp [countKind_cons, countKind_nil, huser, hst1w]
  · dsimp only
    exact hst1s

/-- Witness for C4: the spec scenario, a 10 GiB volume service at 7.5 GiB
(75 percent), gets one warning, the flag, and stays active. -/
theorem C4_warn70_band_witness :
    countKind MsgKind.warn70 (evalOnce fxEnv fxClient75 fxSt).queued
      = countKind MsgKind.warn70 fxSt.queued + 1 ∧
    (evalOnce fxEnv fxClient75 fxSt).db.warned_70_percent = true ∧
    (evalOnce fxEnv fxClient75 fxSt).db.status = Status.active :=
  C4_warn70_band fxEnv fxClient75 fxSt rfl rfl rfl rfl
    (by norm_num [resolved_total_traffic, fxClient75, gib])
    (by norm_num [resolved_used_traffic, resolved_total_traffic, fxClient75, gib])
    (by norm_num [resolved_used_traffic, resolved_total_traffic, fxClient75, gib])
    (by intro e he; exact absurd he (by simp [fxSt, fxVol]))


/-- Counterexample for C5: the 3-day expiry warning path performs no
fresh flag read; with warned_one_week already true in the store, it still
queues the warning instead of skipping the send. -/
theorem C5_three_day_no_fresh_check_counterexample :
    fxStAll.db.warned_one_week = true ∧
    fxEnv.user_exists = true ∧
    (send_three_days_expiration_warning fxEnv fxAllWarned 2 fxStAll).queued
      = fxStAll.queued ++ [Msg.mk 13 MsgKind.three_day_warning] ∧
    (send_three_days_expiration_warning fxEnv fxAllWarned 2 fxStAll).queued
      ≠ fxStAll.queued := by
  refine ⟨rfl, rfl, ?_, ?_⟩
  · simp [send_three_days_expiration_warning_eq, fxEnv, fxAllWarned, fxStAll]
  · simp [send_three_days_expiration_warning_eq, fxEnv, fxAllWarned, fxStAll]

/-- Claim C5 amended: three of the four flag-guarded notification paths
(70-percent warning, exhaustion, expiration) re-read the flag freshly from
the store immediately before sending and skip when it is already true; the
3-day expiry warning path does not re-check the store and queues its
message whenever the user exists, relying only on the caller's in-memory
flag. -/
theorem C5_fresh_flag_reads (env : Env) (s : Service) (st : MonState) (d : ℤ) :
    (st.db.warned_70_percent = true → send_70_percent_warning env s st = st) ∧
    (st.db.warned_100_percent = true → send_exhaustion_notification env s st = st) ∧
    (st.db.warned_expired = true → send_plan_expiration_notification env s st = st) ∧
    (env.user_exists = true →
      (send_three_days_expiration_warning env s d st).queued
        = st.queued ++ [Msg.mk s.user_id MsgKind.three_day_warning]) := by
  refine ⟨?_, ?_, ?_, ?_⟩
  · intro h
    rw [send_70_percent_warning_eq]
    simp [h]
  · intro h
    rw [send_exhaustion_notification_eq]
    simp [h]
  · intro h
    rw [send_plan_expiration_notification_eq]
    simp [h]
  · intro h
    rw [send_three_days_expiration_warning_eq]
    simp [h]

/-- Witness for C5: on a state with all flags set, the three re-checking
paths are no-ops while the 3-day path still queues. -/
theorem C5_fresh_flag_reads_witness :
    send_70_percent_warning fxEnv fxAllWarned fxStAll = fxStAll ∧
    send_exhaustion_notification fxEnv fxAllWarned fxStAll = fxStAll ∧
    send_plan_expiration_notification fxEnv fxAllWarned fxStAll = fxStAll ∧
    (send_three_days_expiration_warning fxEnv fxAllWarned 2 fxStAll).queued
      = fxStAll.queued ++ [Msg.mk fxAllWarned.user_id MsgKind.three_day_warning] := by
  have h := C5_fresh_flag_reads fxEnv fxAllWarned fxStAll 2
  exact ⟨h.1 rfl, h.2.1 rfl, h.2.2.1 rfl, h.2.2.2 rfl⟩

theorem hpe_deleted (env : Env) (s : Service) (st : MonState) :
    (handle_plan_expiration env s st).deleted = st.deleted := by
  rw [handle_plan_expiration_eq]
  split_ifs <;> rfl

theorem hte_pending (env : Env) (s : Service) (st : MonState) :
    (handle_traffic_exhausted env s st).pending_updates = st.pending_updates := by
  rw [handle_traffic_exhausted_eq]
  split_ifs <;> rfl

theorem cpe_deleted_of_total_nonpos (env : Env) (s : Service) (c : ClientDetails)
    (st : MonState) (h : resolved_total_traffic c ≤ 0) :
    (check_plan_expiration env s c st).deleted = st.deleted := by
  cases hp : s.product_id <;> cases he : s.expires_at <;>
    simp only [check_plan_expiration, hp, he] <;> try rfl
  rename_i pid e
  split_ifs <;> try split
  all_goals
    solve
      | rfl
      | exact hpe_deleted env s _
      | exact (hpe_deleted env s _).trans (by simp [send_three_days_expiration_warning_eq])
      | simp [send_three_days_expiration_warning_eq]
      | (exfalso; linarith)

/-- Claim C6: a service whose resolved total traffic is nonpositive
(unlimited) still stages its usage-counter update, but no threshold logic
runs: no 70-percent warning, no exhaustion notification or anchor, and no
overage deletion, regardless of used_gb. -/
theorem C6_unlimited_no_thresholds (env : Env) (s : Service) (c : ClientDetails)
    (st : MonState) (h : resolved_total_traffic c ≤ 0) :
    (process_client_traffic env s c st).pending_updates
      = st.pending_updates ++ [staged_entry s c] ∧
    countKind MsgKind.warn70 (process_client_traffic env s c st).queued
      = countKind MsgKind.warn70 st.queued ∧
    countKind MsgKind.exhausted (process_client_traffic env s c st).queued
      = countKind MsgKind.exhausted st.queued ∧
    (process_client_traffic env s c st).db.warned_70_percent = st.db.warned_70_percent ∧
    (process_client_traffic env s c st).db.exhausted_at = st.db.exhausted_at ∧
    (process_client_traffic env s c st).deleted = st.deleted := by
  simp only [process_client_traffic]
  rw [if_pos h]
  refine ⟨?_, ?_, ?_, ?_, ?_, ?_⟩ <;> dsimp only
  · split
    · rw [cpe_pending]
    · rfl
  · split
    · rw [cpe_count_warn70]
    · rfl
  · split
    · rw [cpe_count_exhausted]
    · rfl
  · split
    · rw [cpe_w70]
    · rfl
  · split
    · rw [cpe_exhausted_at]
    · rfl
  · split
    · rw [cpe_deleted_of_total_nonpos env s c st h]
    · rfl

/-- Witness for C6: an unlimited (zero-total) client with 5 GiB of usage
stages its update and triggers nothing. -/
theorem C6_unlimited_no_thresholds_witness :
    (process_client_traffic fxEnv fxVol fxClientUnl fxSt).pending_updates
      = fxSt.pending_updates ++ [staged_entry fxVol fxClientUnl] ∧
    countKind MsgKind.warn70 (process_client_traffic fxEnv fxVol fxClientUnl fxSt).queued
      = countKind MsgKind.warn70 fxSt.queued ∧
    countKind MsgKind.exhausted (process_client_traffic fxEnv fxVol fxClientUnl fxSt).queued
      = countKind MsgKind.exhausted fxSt.queued ∧
    (process_client_traffic fxEnv fxVol fxClientUnl fxSt).db.warned_70_percent
      = fxSt.db.warned_70_percent ∧
    (process_client_traffic fxEnv fxVol fxClientUnl fxSt).db.exhausted_at
      = fxSt.db.exhausted_at ∧
    (process_client_traffic fxEnv fxVol fxClientUnl fxSt).deleted = fxSt.deleted :=
  C6_unlimited_no_thresholds fxEnv fxVol fxClientUnl fxSt
    (by norm_num [resolved_total_traffic, fxClientUnl])


/-- Counterexample for C7: an iteration that took 200 seconds sleeps 0.1
seconds (the anti-busy-loop delay), not max(0, 180 - 200) = 0 as the claim
states. -/
theorem C7_sleep_counterexample :
    iteration_sleep 200 = 1/10 ∧ max (0 : ℚ) (180 - 200) = 0 ∧ (1/10 : ℚ) ≠ 0 := by
  refine ⟨?_, by norm_num, by norm_num⟩
  norm_num [iteration_sleep]

/-- Claim C7 amended: each scheduler iteration runs the reconciliation
pass then the deletion sweep and sleeps max(0, 180 - elapsed) when the
elapsed time is below 180 seconds, but sleeps a 0.1-second anti-busy-loop
delay (not 0) when elapsed reaches 180; a raising iteration sleeps the
fixed 60-second backoff; and the loop yields no next iteration exactly
when the monitoring flag is cleared, never because of an error. -/
theorem C7_scheduler_cadence (m r : Bool) (d : ℚ) :
    (d < 180 → iteration_sleep d = 180 - d) ∧
    (180 ≤ d → iteration_sleep d = 1/10) ∧
    scheduler_iteration true false d
      = some [SchedAction.reconcile, SchedAction.sweep,
              SchedAction.sleep (iteration_sleep d)] ∧
    scheduler_iteration true true d = some [SchedAction.sleep 60] ∧
    (scheduler_iteration m r d = none ↔ m = false) := by
  refine ⟨?_, ?_, ?_, ?_, ?_⟩
  · intro hd
    simp only [iteration_sleep]
    rw [max_eq_right (by linarith), if_pos (by linarith)]
  · intro hd
    simp only [iteration_sleep]
    rw [max_eq_left (by linarith)]
    norm_num
  · simp [scheduler_iteration]
  · simp [scheduler_iteration]
  · cases m <;> cases r <;> simp [scheduler_iteration]

/-- Witness for C7: a 100-second iteration sleeps 80 seconds, a
200-second one sleeps 0.1 seconds, the action order is reconcile then
sweep then sleep, an error sleeps 60 seconds, and clearing the flag stops
the loop. -/
theorem C7_scheduler_cadence_witness :
    iteration_sleep 100 = 80 ∧
    iteration_sleep 200 = 1/10 ∧
    scheduler_iteration true false 100
      = some [SchedAction.reconcile, SchedAction.sweep,
              SchedAction.sleep (iteration_sleep 100)] ∧
    scheduler_iteration true true 100 = some [SchedAction.sleep 60] ∧
    scheduler_iteration false false 100 = none := by
  refine ⟨?_, ?_, ?_, ?_, ?_⟩
  · rw [(C7_scheduler_cadence true false 100).1 (by norm_num)]
    norm_num
  · exact (C7_scheduler_cadence true false 200).2.1 (by norm_num)
  · exact (C7_scheduler_cadence true false 100).2.2.1
  · exact (C7_scheduler_cadence true true 100).2.2.2.1
  · exact (C7_scheduler_cadence false false 100).2.2.2.2.mpr rfl

theorem foldl_append_singleton {α β : Type} (f : α → β) (l : List α) (acc : List β) :
    l.foldl (fun buf p => buf ++ [f p]) acc = acc ++ l.map f := by
  induction l generalizing acc with
  | nil => simp
  | cons x xs ih => simp [ih]

theorem process_client_traffic_pending (env : Env) (s : Service) (c : ClientDetails)
    (st : MonState) :
    (process_client_traffic env s c st).pending_updates
      = st.pending_updates ++ [staged_entry s c] := by
  simp only [process_client_traffic]
  split_ifs
  all_goals try rw [hte_pending]
  all_goals try rw [check_disabled_service_overage_pending]
  all_goals try dsimp only
  all_goals try rw [send_70_percent_warning_eq]
  all_goals try dsimp only
  all_goals try split
  all_goals first | rw [cpe_pending] | rfl

/-- Claim C8: every evaluated service stages exactly one entry in
pending_updates; the cycle flush empties the buffer unconditionally,
performs a single bulk write containing exactly the staged entries when
the write succeeds, and loses the entries without any store write or
retry when it fails. -/
theorem C8_update_buffer (env : Env) (s : Service) (c : ClientDetails)
    (st : MonState) (write_ok : Bool) (pairs : List (Service × ClientDetails)) :
    (process_client_traffic env s c st).pending_updates
      = st.pending_updates ++ [staged_entry s c] ∧
    (run_cycle_buffer write_ok pairs).pending_updates = [] ∧
    (run_cycle_buffer true pairs).store_writes
      = (if pairs = [] then []
         else [pairs.map (fun p => staged_entry p.1 p.2)]) ∧
    (run_cycle_buffer false pairs).store_writes = [] := by
  refine ⟨process_client_traffic_pending env s c st, ?_, ?_, ?_⟩
  · unfold run_cycle_buffer flush_updates
    rw [foldl_append_singleton]
    simp only [List.nil_append]
    split_ifs with h1
    all_goals first | exact h1 | rfl | simp
  · unfold run_cycle_buffer flush_updates
    rw [foldl_append_singleton]
    simp only [List.nil_append]
    by_cases hp : pairs = []
    · simp [hp]
    · rw [if_neg (by simpa using hp), if_neg hp]
      simp
  · unfold run_cycle_buffer flush_updates
    rw [foldl_append_singleton]
    simp only [List.nil_append]
    split_ifs <;> first | rfl | simp_all


theorem lookup_last_set_same (l : List (Nat × ℚ)) (c : Nat) (t : ℚ) :
    lookup_last (set_last l c t) c = t := by
  simp [lookup_last, set_last, List.lookup]

theorem lookup_last_set_ne (l : List (Nat × ℚ)) (c c2 : Nat) (t : ℚ)
    (h : c2 ≠ c) :
    lookup_last (set_last l c t) c2 = lookup_last l c2 := by
  have hb : (c2 == c) = false := beq_eq_false_iff_ne.mpr h
  simp [lookup_last, set_last, List.lookup, hb]

theorem wellSpaced_append (l : List SendRecord) (r : SendRecord)
    (hl : WellSpaced l)
    (hr : ∀ i < l.length,
      (l.getD i (SendRecord.mk 0 0 false)).ok = true → r.ok = true →
      (l.getD i (SendRecord.mk 0 0 false)).chat_id = r.chat_id →
      (l.getD i (SendRecord.mk 0 0 false)).start + min_message_interval ≤ r.start) :
    WellSpaced (l ++ [r]) := by
  intro i hi j hj hij hoki hokj hchat
  have hlen : (l ++ [r]).length = l.length + 1 := by simp
  rw [hlen] at hi hj
  have hil : i < l.length := lt_of_lt_of_le hij (Nat.lt_succ_iff.mp hj)
  rw [List.getD_append _ _ _ _ hil] at hoki hchat ⊢
  rcases Nat.lt_succ_iff_lt_or_eq.mp hj with hjl | hjl
  · rw [List.getD_append _ _ _ _ hjl] at hokj hchat ⊢
    exact hl i hil j hjl hij hoki hokj hchat
  · subst hjl
    rw [List.getD_append_right _ _ _ _ (le_refl _)] at hokj hchat ⊢
    simp only [Nat.sub_self, List.getD] at hokj hchat ⊢
    exact hr i hil hoki hokj hchat

theorem process_one_inv (st : DispatchState) (item : QueueItem)
    (hinv : DispatchInv st) (hdur : 0 ≤ item.duration) :
    DispatchInv (process_one st item) := by
  obtain ⟨hws, hlast⟩ := hinv
  have hmmi : (0 : ℚ) < min_message_interval := by norm_num [min_message_interval]
  simp only [process_one]
  set now := max st.now item.arrival with hnow
  set last_time := lookup_last st.last_message_time item.chat_id with hlt
  set start := if now - last_time < min_message_interval then
      now + (min_message_interval - (now - last_time)) else now with hstart
  have hsp : last_time + min_message_interval ≤ start := by
    rw [hstart]
    split_ifs with hc
    · linarith
    · push_neg at hc
      linarith
  split_ifs with hok
  · constructor
    · apply wellSpaced_append _ _ hws
      intro i hil hoki hokr hchat
      have hmem : st.sends.getD i (SendRecord.mk 0 0 false) ∈ st.sends := by
        rw [List.getD_eq_getElem st.sends _ hil]
        exact List.getElem_mem hil
      dsimp only at hchat ⊢
      have h1 := hlast _ hmem hoki
      rw [hchat, ← hlt] at h1
      linarith
    · intro r hr hokr
      rcases List.mem_append.mp hr with hr | hr
      · dsimp only
        by_cases hc : r.chat_id = item.chat_id
        · rw [hc, lookup_last_set_same]
          have h1 := hlast r hr hokr
          rw [hc, ← hlt] at h1
          linarith
        · rw [lookup_last_set_ne _ _ _ _ hc]
          exact hlast r hr hokr
      · simp only [List.mem_singleton] at hr
        subst hr
        dsimp only
        rw [lookup_last_set_same]
        linarith
  · constructor
    · apply wellSpaced_append _ _ hws
      intro i hil hoki hokr hchat
      simp at hokr
    · intro r hr hokr
      rcases List.mem_append.mp hr with hr | hr
      · exact hlast r hr hokr
      · simp only [List.mem_singleton] at hr
        subst hr
        simp at hokr

theorem process_message_queue_chats (items : List QueueItem) (st : DispatchState) :
    (process_message_queue items st).sends.map (fun r => r.chat_id)
      = st.sends.map (fun r => r.chat_id) ++ items.map (fun i => i.chat_id) := by
  induction items generalizing st with
  | nil => simp [process_message_queue]
  | cons x xs ih =>
    simp only [process_message_queue, List.foldl_cons] at ih ⊢
    rw [ih]
    have hone : (process_one st x).sends.map (fun r => r.chat_id)
        = st.sends.map (fun r => r.chat_id) ++ [x.chat_id] := by
      simp only [process_one]
      split_ifs <;> simp
    rw [hone]
    simp

theorem process_message_queue_inv (items : List QueueItem) (st : DispatchState)
    (hinv : DispatchInv st) (hdur : ∀ it ∈ items, 0 ≤ it.duration) :
    DispatchInv (process_message_queue items st) := by
  induction items generalizing st with
  | nil => exact hinv
  | cons x xs ih =>
    simp only [process_message_queue, List.foldl_cons] at ih ⊢
    exact ih (process_one st x)
      (process_one_inv st x hinv (hdur x (List.mem_cons_self x xs)))
      (fun it hit => hdur it (List.mem_cons_of_mem x hit))

/-- Counterexample for C9: a delivery failure does not update the
recipient's last-send time, so the worker can perform two sends to the
same recipient with no interval at all between them; here a failed send
and the next send to recipient 1 both start at time 5. -/
theorem C9_failed_send_breaks_spacing_counterexample :
    (process_message_queue fxItems fxD0).sends
      = [SendRecord.mk 1 5 false, SendRecord.mk 1 5 true] ∧
    ¬ AttemptsSpaced (process_message_queue fxItems fxD0).sends := by
  have hev : (process_message_queue fxItems fxD0).sends
      = [SendRecord.mk 1 5 false, SendRecord.mk 1 5 true] := by
    norm_num [process_message_queue, process_one, fxItems, fxD0,
      lookup_last, set_last, min_message_interval, List.lookup]
  refine ⟨hev, ?_⟩
  intro h
  rw [hev] at h
  have h2 := h 0 (by norm_num) 1 (by norm_num) (by norm_num)
  simp only [List.getD, List.getElem?_cons_zero, List.getElem?_cons_succ,
    Option.getD_some] at h2
  have h3 := h2 rfl
  norm_num [min_message_interval] at h3

/-- Claim C9 amended: starting from a fresh dispatcher state, the single
worker processes the queue in FIFO order (the performed sends line up
one-to-one, in order, with the queued items), and any two SUCCESSFUL sends
to the same recipient start at least min_message_interval (1 second)
apart; a failed delivery does not update the last-send time, so spacing is
not guaranteed for failed attempts (see the counterexample). -/
theorem C9_dispatcher_rate_limit (items : List QueueItem) (t0 : ℚ)
    (hdur : ∀ it ∈ items, 0 ≤ it.duration) :
    WellSpaced (process_message_queue items (DispatchState.mk t0 [] [])).sends ∧
    (process_message_queue items (DispatchState.mk t0 [] [])).sends.map (fun r => r.chat_id)
      = items.map (fun i => i.chat_id) := by
  have hinv0 : DispatchInv (DispatchState.mk t0 [] []) := by
    constructor
    · intro i hi
      simp at hi
    · intro r hr
      simp at hr
  constructor
  · exact (process_message_queue_inv items _ hinv0 hdur).1
  · rw [process_message_queue_chats]
    simp

/-- Witness for C9: ten simultaneous messages to recipient 1 are sent in
order with successful sends spaced at least one second apart. -/
theorem C9_dispatcher_rate_limit_witness :
    WellSpaced (process_message_queue fxTen (DispatchState.mk 5 [] [])).sends ∧
    (process_message_queue fxTen (DispatchState.mk 5 [] [])).sends.map (fun r => r.chat_id)
      = fxTen.map (fun i => i.chat_id) :=
  C9_dispatcher_rate_limit fxTen 5 (by
    intro it hit
    simp [fxTen] at hit
    rw [hit])


/-- Claim C10: every deletion path (overage deletion, exhausted-service
sweep deletion, expired-plan sweep deletion) sends its final user
notification directly through bot.send_message rather than enqueueing it
on the rate-limited dispatcher queue: the queue is untouched and the
direct-send list grows when the user exists. -/
theorem C10_deletion_notifications_direct (env : Env) (s : Service)
    (p g : ℚ) (st : MonState) :
    ((delete_service_for_overage env s p g st).queued = st.queued ∧
     (delete_service_for_overage env s p g st).direct
       = st.direct ++ (if env.user_exists = true
           then [Msg.mk s.user_id MsgKind.overage_deleted] else [])) ∧
    ((delete_exhausted_service env s st).queued = st.queued ∧
     (delete_exhausted_service env s st).direct
       = st.direct ++ (if env.user_exists = true
           then [Msg.mk s.user_id MsgKind.exhausted_deleted] else [])) ∧
    ((delete_expired_plan_service env s st).queued = st.queued ∧
     (delete_expired_plan_service env s st).direct
       = st.direct ++ (if env.user_exists = true
           then [Msg.mk s.user_id MsgKind.expired_plan_deleted] else [])) := by
  rw [delete_service_for_overage_eq, delete_exhausted_service_eq,
    delete_expired_plan_service_eq]
  exact ⟨⟨rfl, rfl⟩, ⟨rfl, rfl⟩, ⟨rfl, rfl⟩⟩


end TrafficMonitor
